import Mathlib

/-!
# Verification of the audio_recorder capture/analysis/emit loop

Shallow embedding of `src/main.rs` (Crokoking/audio_recorder): the adaptive
silence detector, the silence accumulator and auto-stop decision, the binary
streaming protocol, the cancellation flag, and the pre-capture configuration
checks of `main`.

Modelling conventions:
* `f32`/`f64` arithmetic is modelled over the exact reals, with IEEE NaN made
  explicit: `FVal := Option ℝ`, `none` standing for NaN.  Rounding is not
  modelled; every claim proved here is about values (0, small rationals,
  perfect-square RMS values) on which `f32` arithmetic is exact, or about NaN
  propagation, which is rounding-independent.
* Machine integers are `Nat`/`Int`.  `usize` is 8 bytes wide (64-bit target,
  the normal target of this desktop application); `i64` sums are modelled as
  exact `Int` (the i64-overflow question is settled separately as a bound).
* The blocking `recorder.read()` calls are modelled by a list of frames: the
  list's elements are the successful reads, and the end of the list is the
  capture source ceasing to record (`is_recording()` turning false).  A read
  error aborts the process and is outside every claim treated here.
-/

namespace AudioRecorder

/-- An `f32` value: `none` models IEEE NaN, `some x` models the real value
`x` (rounding not modelled). -/
abbrev FVal : Type := Option ℝ

/-- `f32` addition: NaN-propagating, otherwise exact real addition. -/
def fadd (a b : FVal) : FVal :=
  match a, b with
  | some x, some y => some (x + y)
  | _, _ => none

/-- `f32` multiplication: NaN-propagating, otherwise exact real
multiplication. -/
def fmul (a b : FVal) : FVal :=
  match a, b with
  | some x, some y => some (x * y)
  | _, _ => none

/-- `f32` division.  A zero divisor yields NaN: in the one place the program
divides (`calculate_rms`), the numerator is a sum over the very frame whose
length is the divisor, so a zero divisor forces a zero numerator and IEEE
gives `0.0 / 0.0 = NaN`; the `x / 0` with `x ≠ 0` infinity case is
unreachable there. -/
noncomputable def fdiv (a b : FVal) : FVal :=
  match a, b with
  | some x, some y => if y = 0 then none else some (x / y)
  | _, _ => none

/-- `f32` square root: NaN on NaN or negative input, else the real square
root.  The program only takes square roots of mean squares, which are
nonnegative. -/
noncomputable def fsqrt (a : FVal) : FVal :=
  match a with
  | some x => if x < 0 then none else some (Real.sqrt x)
  | none => none

/-- `f32` strict `<`.  Any comparison with NaN is false, as in IEEE. -/
noncomputable def flt (a b : FVal) : Bool :=
  match a, b with
  | some x, some y => if x < y then true else false
  | _, _ => false

/-! ## Constants (main.rs lines 15-28) -/

/-- Exit status for library-resolution failure (`main.rs` line 15). -/
def LIB_ERROR : Nat := 1

/-- Exit status for user/argument errors (`main.rs` line 16). -/
def USER_ERROR : Nat := 2

/-- Exit status for audio-device errors (`main.rs` line 17). -/
def AUDIO_ERROR : Nat := 3

/-- Exit status for file/IO errors (`main.rs` line 18). -/
def FILE_ERROR : Nat := 4

/-- Smoothing factor for the moving average (`main.rs` line 22). -/
def ALPHA : ℝ := 0.1

/-- Multiplier deriving the silence threshold from the moving average
(`main.rs` line 24). -/
def SILENCE_FACTOR : ℝ := 0.9

/-- Config-record marker byte (`main.rs` line 26: `BYTE_CONFIG = 1u8`). -/
def BYTE_CONFIG : Nat := 1

/-- Frame-record marker byte (`main.rs` line 27: `BYTE_FRAME = 2u8`). -/
def BYTE_FRAME : Nat := 2

/-- Stream protocol version byte (`main.rs` line 28). -/
def BYTE_CURRENT_VERSION : Nat := 1

/-! ## Byte encodings (main.rs lines 127-132 and 175-186) -/

/-- Little-endian bytes of a `u32`, as produced by `u32::to_le_bytes`
(`sample_rate.to_le_bytes()`, `main.rs` line 128). -/
def u32le (n : Nat) : List Nat :=
  [n % 256, n / 256 % 256, n / 65536 % 256, n / 16777216 % 256]

/-- Little-endian bytes of a `usize` on the 64-bit target, as produced by
`frame.len().to_le_bytes()` (`main.rs` line 181): eight bytes. -/
def usize64le (n : Nat) : List Nat :=
  [n % 256, n / 256 % 256, n / 65536 % 256, n / 16777216 % 256,
   n / 4294967296 % 256, n / 1099511627776 % 256,
   n / 281474976710656 % 256, n / 72057594037927936 % 256]

/-- Little-endian two's-complement bytes of an `i16`, as produced by
`sample.to_le_bytes()` (`main.rs` line 183). -/
def i16le (s : Int) : List Nat :=
  [(s % 65536).toNat % 256, (s % 65536).toNat / 256 % 256]

/-- The stream header written once before the loop when streaming
(`main.rs` lines 127-132): version byte, config byte, then the sample rate
as `u32` little-endian. -/
def streamHeader (sample_rate : Nat) : List Nat :=
  BYTE_CURRENT_VERSION :: BYTE_CONFIG :: u32le sample_rate

/-- The bytes emitted for one frame in streaming mode (`main.rs` lines
175-186): frame marker, `is_silence as u8`, `frame.len().to_le_bytes()`
(a `usize`, eight bytes on the 64-bit target), then each sample's two
little-endian bytes. -/
def frameRecordBytes (is_silence : Bool) (frame : List Int) : List Nat :=
  BYTE_FRAME :: (if is_silence then 1 else 0) ::
    (usize64le frame.length ++ (frame.map i16le).flatten)

/-! ## Silence detector (main.rs lines 137-148 and 319-323) -/

/-- `calculate_rms` (`main.rs` lines 319-323): the sum of squared samples in
an `i64` accumulator (modelled as exact `Int`), cast to `f32`, divided by the
frame length cast to `f32`, then `sqrt`.  For an empty frame this is the
unguarded division `0.0 / 0.0`, i.e. NaN. -/
noncomputable def calculate_rms (frame : List Int) : FVal :=
  let sum_of_squares : Int := (frame.map (fun sample => sample * sample)).sum
  fsqrt (fdiv (some ((sum_of_squares : ℝ))) (some ((frame.length : ℝ))))

/-- One step of the adaptive silence detector, exactly as inlined in the
capture loop (`main.rs` lines 137-148): compute the frame's RMS, update the
moving average `ALPHA * rms + (1 - ALPHA) * avg`, derive the threshold
`average * SILENCE_FACTOR` from the just-updated average, and classify the
frame as silence when `rms < threshold`.  Returns
(`is_silence`, updated moving average). -/
noncomputable def detectorStep (frame : List Int) (rms_moving_average : FVal) :
    Bool × FVal :=
  let rms := calculate_rms frame
  let updated := fadd (fmul (some ALPHA) rms)
    (fmul (some (1 - ALPHA)) rms_moving_average)
  let dynamic_silence_threshold := fmul updated (some SILENCE_FACTOR)
  (flt rms dynamic_silence_threshold, updated)

/-- The sequence of silence classifications produced by running the detector
(lines 137-148) over successive frames, starting from a given moving
average; the loop initializes the average to `0.0` (`main.rs` line 124). -/
noncomputable def classifySeq (rms_moving_average : FVal) :
    List (List Int) → List Bool
  | [] => []
  | frame :: rest =>
    (detectorStep frame rms_moving_average).1 ::
      classifySeq (detectorStep frame rms_moving_average).2 rest

/-! ## Capture loop (main.rs lines 114-206) -/

/-- The session's output target: a WAV file writer or the stdout stream
(`main.rs` lines 114-118; exactly one of the two is active). -/
inductive OutputMode : Type where
  | wav : OutputMode
  | stream : OutputMode
deriving DecidableEq

/-- The capture loop's mutable state, plus observable output.  `reads`
counts completed `recorder.read()` calls, `out` is every byte written to
stdout so far, `wavSamples` every sample written to the WAV sink so far, and
`flushes` the number of per-frame `writer.flush()` calls — the last four are
instrumentation recording the loop's observable effects. -/
structure LoopState : Type where
  avg : FVal
  acc : Nat
  reads : Nat
  out : List Nat
  wavSamples : List Int
  flushes : Nat

/-- Why the capture loop exited: `silenceStop` is the `recorder.stop()` +
`break` on silence timeout (`main.rs` lines 152-158), `sourceStop` is
`is_recording()` turning false (the `while` condition, line 134). -/
inductive ExitReason : Type where
  | silenceStop : ExitReason
  | sourceStop : ExitReason
deriving DecidableEq

/-- Frame routing (`main.rs` lines 164-186): in WAV mode write every sample
then flush; in streaming mode emit the frame record bytes to stdout. -/
def route (mode : OutputMode) (is_silence : Bool) (frame : List Int)
    (st : LoopState) : LoopState :=
  match mode with
  | OutputMode.wav =>
    { st with wavSamples := st.wavSamples ++ frame, flushes := st.flushes + 1 }
  | OutputMode.stream =>
    { st with out := st.out ++ frameRecordBytes is_silence frame }

/-- One iteration of the capture loop body (`main.rs` lines 136-186) on a
successfully read frame: run the detector, compute the frame duration
`(1000 * len / sample_rate)` truncated to a whole number of milliseconds
(the source computes this in `f64` then truncates to `u64`; for a positive
sample rate this is the floor, modelled by `Nat` division), update the
silence accumulator, decide the silence auto-stop, and route the frame.
Returns the new state and whether the loop hit `recorder.stop()` + `break`.
Note the source `break`s *before* the routing code, so a triggering frame is
not routed. -/
noncomputable def loopIter (mode : OutputMode) (silence_threshold_ms sample_rate : Nat)
    (frame : List Int) (st : LoopState) : LoopState × Bool :=
  let is_silence := (detectorStep frame st.avg).1
  let updated := (detectorStep frame st.avg).2
  let frame_duration_ms := 1000 * frame.length / sample_rate
  if is_silence then
    let acc' := st.acc + frame_duration_ms
    if 0 < silence_threshold_ms ∧ acc' ≥ silence_threshold_ms then
      ({ st with avg := updated, acc := acc', reads := st.reads + 1 }, true)
    else
      (route mode is_silence frame
        { st with avg := updated, acc := acc', reads := st.reads + 1 }, false)
  else
    (route mode is_silence frame
      { st with avg := updated, acc := 0, reads := st.reads + 1 }, false)

/-- The capture loop (`main.rs` lines 134-193).  The `cancelled` argument is
the cancellation flag's history: `cancelled i` is the value the Ctrl-C
handler (line 89) has stored into `IS_RUNNING`'s negation by the time of the
`i`-th read.  The loop body (lines 134-193) contains no load of
`IS_RUNNING`, so the parameter is never consulted — mirroring the source,
where the flag is stored by the handler but read nowhere. -/
noncomputable def captureLoop (cancelled : Nat → Bool) (mode : OutputMode)
    (silence_threshold_ms sample_rate : Nat) :
    List (List Int) → LoopState → LoopState × ExitReason
  | [], st => (st, ExitReason.sourceStop)
  | frame :: rest, st =>
    if (loopIter mode silence_threshold_ms sample_rate frame st).2 then
      ((loopIter mode silence_threshold_ms sample_rate frame st).1,
        ExitReason.silenceStop)
    else
      captureLoop cancelled mode silence_threshold_ms sample_rate rest
        (loopIter mode silence_threshold_ms sample_rate frame st).1

/-- Result of one capture session: final loop state, why the loop exited,
and whether the WAV sink was flushed and finalized afterwards. -/
structure SessionResult : Type where
  final : LoopState
  exit : ExitReason
  finalized : Bool

/-- One capture session on the success path (`main.rs` lines 111-205): write
the stream header before the loop when streaming (lines 127-132), run the
loop from average `0.0` and accumulator `0` (lines 121-124), and after the
loop flush and finalize the WAV sink in WAV mode (lines 195-204) — that code
runs on every loop exit, `break` included. -/
noncomputable def runSession (mode : OutputMode) (cancelled : Nat → Bool)
    (silence_threshold_ms sample_rate : Nat) (frames : List (List Int)) :
    SessionResult :=
  let st0 : LoopState :=
    { avg := some 0, acc := 0, reads := 0,
      out := if mode = OutputMode.stream then streamHeader sample_rate else [],
      wavSamples := [], flushes := 0 }
  { final := (captureLoop cancelled mode silence_threshold_ms sample_rate frames st0).1,
    exit := (captureLoop cancelled mode silence_threshold_ms sample_rate frames st0).2,
    finalized := mode = OutputMode.wav }

/-- Outcome of `main`: `exited code` is a `std::process::exit(code)` during
the configuration phase, before the recorder is initialized or started (so
before any capture begins); `listed` is the early return of `--list`
(lines 69-74); `finished` is a completed capture session. -/
inductive MainOutcome : Type where
  | exited : Nat → MainOutcome
  | listed : MainOutcome
  | finished : SessionResult → MainOutcome

/-- The argument-validation and device-selection phase of `main` followed by
the capture session (`main.rs` lines 49-84 then 96-205): reject `--stream`
together with `--output` and the absence of both (lines 49-57, exit
`USER_ERROR`); `--list` prints and returns (lines 69-74); a requested device
index not present in the enumerated device list exits with `USER_ERROR`
(lines 76-84) before the recorder is initialized (line 96) or started (line
105).  Library-path resolution, device enumeration, handler installation and
recorder init/start are fallible library calls modelled on their success
path; a negative `--device` value is cast to `usize` by the source and is
out of range as well, so the index is modelled as `Nat`. -/
noncomputable def mainRun (streamFlag listFlag : Bool) (output : Option String)
    (deviceArg : Option Nat) (devices : List String)
    (silence_threshold_ms sample_rate : Nat) (cancelled : Nat → Bool)
    (frames : List (List Int)) : MainOutcome :=
  if streamFlag ∧ output.isSome then MainOutcome.exited USER_ERROR
  else if ¬streamFlag ∧ output.isNone then MainOutcome.exited USER_ERROR
  else if listFlag then MainOutcome.listed
  else
    let mode := if streamFlag then OutputMode.stream else OutputMode.wav
    match deviceArg with
    | some id =>
      match devices.get? id with
      | some _ =>
        MainOutcome.finished
          (runSession mode cancelled silence_threshold_ms sample_rate frames)
      | none => MainOutcome.exited USER_ERROR
    | none =>
      MainOutcome.finished
        (runSession mode cancelled silence_threshold_ms sample_rate frames)

/-! ## Spec-side decoder for the §6 stream grammar (claim C3) -/

/-- Modelled from the spec: the value of a `sample:i16(LE)` field of the §6
grammar, two little-endian bytes read as a two's-complement 16-bit signed
integer. -/
def i16OfLe (b0 b1 : Nat) : Int :=
  let v := b0 + 256 * b1
  if v < 32768 then (v : Int) else (v : Int) - 65536

/-- Modelled from the spec: read `n` consecutive `i16(LE)` samples (two
bytes each) off the front of a byte list, per the §6 production
`sample:i16(LE){sampleCount}`; fails if fewer than `2 * n` bytes remain. -/
def takeSamples : Nat → List Nat → Option (List Int × List Nat)
  | 0, bs => some ([], bs)
  | n + 1, b0 :: b1 :: bs =>
    match takeSamples n bs with
    | some (samples, rest) => some (i16OfLe b0 b1 :: samples, rest)
    | none => none
  | _ + 1, _ => none

/-- Modelled from the spec: the §6 production
`frame := frameMarker:u8 silenceFlag:u8 sampleCount:u32(LE) sample:i16(LE){sampleCount}`
applied repeatedly until the input is exhausted.  The marker byte is read
positionally and its value not constrained (§6 fixes `configMarker = 2` and
only says the frame marker is distinct; checking a value could only reject
more inputs).  The silence flag must be 0 (noise) or 1 (silence) as §6
states.  The fuel argument bounds recursion depth; each parsed frame
consumes at least six bytes, so fuel equal to the input length suffices. -/
def decodeFramesFuel : Nat → List Nat → Option (List (Bool × List Int))
  | _, [] => some []
  | 0, _ :: _ => none
  | fuel + 1, _marker :: s :: c0 :: c1 :: c2 :: c3 :: bs =>
    if s = 0 ∨ s = 1 then
      match takeSamples (c0 + 256 * c1 + 65536 * c2 + 16777216 * c3) bs with
      | some (samples, rest) =>
        match decodeFramesFuel fuel rest with
        | some frames => some ((decide (s = 1), samples) :: frames)
        | none => none
      | none => none
    else none
  | _ + 1, _ => none

/-- Modelled from the spec: decode a whole §6 stream,
`header := version:u8 configMarker:u8 sampleRate:u32(LE)` followed by
`frame*`, returning the sample rate and the per-frame (silence flag,
samples) pairs.  The version and config-marker bytes are read positionally
(checking them against the §6 constants `version = 1`, `configMarker = 2`
could only reject more inputs — and would already reject this program's
header, whose second byte is 1; see claim C6). -/
def decodeStream (bs : List Nat) : Option (Nat × List (Bool × List Int)) :=
  match bs with
  | _v :: _cm :: r0 :: r1 :: r2 :: r3 :: rest =>
    match decodeFramesFuel rest.length rest with
    | some frames => some (r0 + 256 * r1 + 65536 * r2 + 16777216 * r3, frames)
    | none => none
  | _ => none

/-- A cancellation-flag history in which the interrupt never fires. -/
def noCancel : Nat → Bool := fun _ => false

/-- A cancellation-flag history in which the interrupt fires right after the
first read: the flag is set from the second read on. -/
def cancelAfterFirst : Nat → Bool := fun i => 1 ≤ i

/-! ## Helper lemmas: the float model -/

theorem fadd_some_some (x y : ℝ) : fadd (some x) (some y) = some (x + y) := rfl

theorem fadd_none_right (a : FVal) : fadd a none = none := by
  cases a <;> rfl

theorem fadd_none_left (a : FVal) : fadd none a = none := rfl

theorem fmul_some_some (x y : ℝ) : fmul (some x) (some y) = some (x * y) := rfl

theorem fmul_none_right (a : FVal) : fmul a none = none := by
  cases a <;> rfl

theorem fmul_none_left (a : FVal) : fmul none a = none := rfl

theorem flt_none_right (a : FVal) : flt a none = false := by
  cases a <;> rfl

theorem flt_none_left (a : FVal) : flt none a = false := rfl

theorem flt_some_some_iff (x y : ℝ) : flt (some x) (some y) = true ↔ x < y := by
  simp [flt]

theorem flt_some_some_false (x y : ℝ) (h : ¬x < y) :
    flt (some x) (some y) = false := by
  simp [flt, h]

/-! ## Helper lemmas: concrete RMS values -/

theorem calculate_rms_nil : calculate_rms [] = none := by
  simp [calculate_rms, fdiv, fsqrt]

theorem sum_squares_of_zero (f : List Int)
    (h : ∀ s ∈ f, s = 0) : (f.map (fun sample => sample * sample)).sum = 0 := by
  induction f with
  | nil => simp
  | cons a t ih =>
    have ha : a = 0 := h a (List.mem_cons_self a t)
    have ht : ∀ s ∈ t, s = 0 := fun s hs => h s (List.mem_cons_of_mem a hs)
    simp [ha, ih ht]

theorem calculate_rms_zero_frame (f : List Int)
    (h : ∀ s ∈ f, s = 0) (hne : f ≠ []) : calculate_rms f = some 0 := by
  have hlen : (f.length : ℝ) ≠ 0 := by
    simpa [List.length_eq_zero] using hne
  simp [calculate_rms, sum_squares_of_zero f h, fdiv, hlen, fsqrt, Real.sqrt_zero]

theorem calculate_rms_single_one : calculate_rms [1] = some 1 := by
  norm_num [calculate_rms, fdiv, fsqrt, Real.sqrt_one]

theorem calculate_rms_loud : calculate_rms [100, -100] = some 100 := by
  simp only [calculate_rms, List.map, List.sum_cons, List.sum_nil, fdiv, fsqrt,
    List.length_cons, List.length_nil]
  norm_num
  rw [show (10000 : ℝ) = 100 ^ 2 by norm_num,
    Real.sqrt_sq (by norm_num : (0 : ℝ) ≤ 100)]

theorem calculate_rms_quiet : calculate_rms [1, -1] = some 1 := by
  simp only [calculate_rms, List.map, List.sum_cons, List.sum_nil, fdiv, fsqrt,
    List.length_cons, List.length_nil]
  norm_num [Real.sqrt_one]

/-! ## Helper lemmas: detector steps -/

theorem detectorStep_nan (f : List Int) : detectorStep f none = (false, none) := by
  cases hr : calculate_rms f <;>
    simp [detectorStep, hr, fadd, fmul, flt]

theorem detectorStep_empty (a : FVal) : detectorStep [] a = (false, none) := by
  cases a <;>
    simp [detectorStep, calculate_rms_nil, fadd, fmul, flt]

theorem detectorStep_zero_frame (f : List Int)
    (h : ∀ s ∈ f, s = 0) (hne : f ≠ []) :
    detectorStep f (some 0) = (false, some 0) := by
  have hr := calculate_rms_zero_frame f h hne
  simp [detectorStep, hr, fadd, fmul, flt, ALPHA, SILENCE_FACTOR]

theorem detectorStep_single_one :
    detectorStep [1] (some 0) = (false, some (1 / 10)) := by
  simp only [detectorStep, calculate_rms_single_one, fadd, fmul]
  norm_num [ALPHA, SILENCE_FACTOR, flt]

theorem detectorStep_loud :
    detectorStep [100, -100] (some 0) = (false, some 10) := by
  simp only [detectorStep, calculate_rms_loud, fadd, fmul]
  norm_num [ALPHA, SILENCE_FACTOR, flt]

theorem detectorStep_quiet :
    detectorStep [1, -1] (some 10) = (true, some (91 / 10)) := by
  simp only [detectorStep, calculate_rms_quiet, fadd, fmul]
  norm_num [ALPHA, SILENCE_FACTOR, flt]

theorem classifySeq_nan (fs : List (List Int)) :
    classifySeq none fs = fs.map (fun _ => false) := by
  induction fs with
  | nil => simp [classifySeq]
  | cons f rest ih => simp [classifySeq, detectorStep_nan, ih]

/-! ## Helper lemmas: the capture loop -/

theorem route_acc (m : OutputMode) (b : Bool) (f : List Int) (st : LoopState) :
    (route m b f st).acc = st.acc := by
  cases m <;> rfl

theorem route_reads (m : OutputMode) (b : Bool) (f : List Int) (st : LoopState) :
    (route m b f st).reads = st.reads := by
  cases m <;> rfl

theorem loopIter_reads (m : OutputMode) (th r : Nat) (f : List Int)
    (st : LoopState) : (loopIter m th r f st).1.reads = st.reads + 1 := by
  rcases h : (detectorStep f st.avg).1
  · simp [loopIter, h, route_reads]
  · simp only [loopIter, h]
    split_ifs <;> simp [route_reads]

theorem loopIter_stop_iff (m : OutputMode) (th r : Nat) (f : List Int)
    (st : LoopState) :
    (loopIter m th r f st).2 = true ↔
      (detectorStep f st.avg).1 = true ∧ 0 < th ∧
        st.acc + 1000 * f.length / r ≥ th := by
  rcases h : (detectorStep f st.avg).1
  · simp [loopIter, h]
  · simp only [loopIter, h, if_true]
    split_ifs with hc
    · simp [hc]
    · simpa using hc

theorem loopIter_acc_noise (m : OutputMode) (th r : Nat) (f : List Int)
    (st : LoopState) (h : (detectorStep f st.avg).1 = false) :
    (loopIter m th r f st).1.acc = 0 := by
  simp [loopIter, h, route_acc]

theorem loopIter_acc_silence (m : OutputMode) (th r : Nat) (f : List Int)
    (st : LoopState) (h : (detectorStep f st.avg).1 = true) :
    (loopIter m th r f st).1.acc = st.acc + 1000 * f.length / r := by
  simp only [loopIter, h, if_true]
  split_ifs <;> simp [route_acc]

theorem loopIter_thresh0_no_stop (m : OutputMode) (r : Nat) (f : List Int)
    (st : LoopState) : (loopIter m 0 r f st).2 = false := by
  rcases h : (loopIter m 0 r f st).2
  · rfl
  · rcases (loopIter_stop_iff m 0 r f st).mp h with ⟨-, h0, -⟩
    exact absurd h0 (lt_irrefl 0)

theorem captureLoop_thresh0 (c : Nat → Bool) (m : OutputMode) (r : Nat)
    (fs : List (List Int)) : ∀ st : LoopState,
    (captureLoop c m 0 r fs st).2 = ExitReason.sourceStop ∧
      (captureLoop c m 0 r fs st).1.reads = st.reads + fs.length := by
  induction fs with
  | nil => intro st; simp [captureLoop]
  | cons f rest ih =>
    intro st
    have hr := loopIter_reads m 0 r f st
    have := ih (loopIter m 0 r f st).1
    simp [captureLoop, loopIter_thresh0_no_stop, this.1, this.2, hr]
    omega

theorem loopIter_stop_unrouted (m : OutputMode) (th r : Nat) (f : List Int)
    (st : LoopState) (h : (loopIter m th r f st).2 = true) :
    (loopIter m th r f st).1.out = st.out ∧
      (loopIter m th r f st).1.wavSamples = st.wavSamples := by
  rcases (loopIter_stop_iff m th r f st).mp h with ⟨hs, hc⟩
  simp [loopIter, hs, hc.1, hc.2]

theorem captureLoop_cons_stop (c : Nat → Bool) (m : OutputMode) (th r : Nat)
    (f : List Int) (rest : List (List Int)) (st : LoopState)
    (h : (loopIter m th r f st).2 = true) :
    captureLoop c m th r (f :: rest) st =
      ((loopIter m th r f st).1, ExitReason.silenceStop) := by
  simp [captureLoop, h]

theorem captureLoop_cons_go (c : Nat → Bool) (m : OutputMode) (th r : Nat)
    (f : List Int) (rest : List (List Int)) (st : LoopState)
    (h : (loopIter m th r f st).2 = false) :
    captureLoop c m th r (f :: rest) st =
      captureLoop c m th r rest (loopIter m th r f st).1 := by
  simp [captureLoop, h]

theorem captureLoop_cancel_irrelevant (c c' : Nat → Bool) (m : OutputMode)
    (th r : Nat) (fs : List (List Int)) : ∀ st : LoopState,
    captureLoop c m th r fs st = captureLoop c' m th r fs st := by
  induction fs with
  | nil => intro st; rfl
  | cons f rest ih =>
    intro st
    rcases h : (loopIter m th r f st).2
    · rw [captureLoop_cons_go c m th r f rest st h,
        captureLoop_cons_go c' m th r f rest st h]
      exact ih _
    · rw [captureLoop_cons_stop c m th r f rest st h,
        captureLoop_cons_stop c' m th r f rest st h]

theorem runSession_cancel_irrelevant (c c' : Nat → Bool) (m : OutputMode)
    (th r : Nat) (fs : List (List Int)) :
    runSession m c th r fs = runSession m c' th r fs := by
  simp [runSession, captureLoop_cancel_irrelevant c c' m th r fs]

/-! ## Claim theorems -/

/-- C1 (code_bug): the source documents the frame record's sample-count
field as a `u32` (main.rs line 34), and the spec repeats this, but the code
writes `frame.len().to_le_bytes()` — a `usize`, eight bytes on the 64-bit
target (main.rs line 181).  Evaluated on the silent two-sample frame
`[5, -3]`: the record is marker, flag, *eight* little-endian length bytes,
then the samples — 14 bytes, where the claimed layout
(marker + flag + 4 count bytes + 2·2 sample bytes) would give 10. -/
theorem frame_record_length_field_is_64_bit :
    frameRecordBytes true [5, -3] =
      [2, 1, 2, 0, 0, 0, 0, 0, 0, 0, 5, 0, 253, 255] ∧
    (frameRecordBytes true [5, -3]).length ≠ 1 + 1 + 4 + 2 * 2 := by
  decide

/-- C3 (code_bug): decoding the stream the program actually produces by the
§6 grammar (4-byte sample count) does not reproduce the encoded frames; on
the single silent frame `[5, -3]` at sample rate 16000 the decode fails
outright, because the grammar reads only the first 4 of the 8 emitted length
bytes and the remaining 4 zero bytes are misparsed as sample data. -/
theorem stream_decode_per_spec_grammar_fails :
    decodeStream (streamHeader 16000 ++ frameRecordBytes true [5, -3]) = none ∧
    decodeStream (streamHeader 16000 ++ frameRecordBytes true [5, -3]) ≠
      some (16000, [(true, [5, -3])]) := by
  decide

/-- C6 (counterexample): the claim says the header's second byte is 2; the
program writes `BYTE_CONFIG = 1` there (main.rs lines 26, 130), so the
header at sample rate 16000 is not `[1, 2, …]`. -/
theorem stream_header_config_marker_cex :
    streamHeader 16000 ≠ BYTE_CURRENT_VERSION :: 2 :: u32le 16000 := by
  decide

/-- C6 (amended): the stream header written once before any frame record is
the byte 1 (version), then the byte 1 (config marker, `BYTE_CONFIG`), then
the sample rate as u32 little-endian; the config-marker byte value (1) does
differ from the frame-marker byte value (`BYTE_FRAME = 2`). -/
theorem stream_header_bytes (sample_rate : Nat) :
    streamHeader sample_rate = 1 :: 1 :: u32le sample_rate ∧
      BYTE_CONFIG = 1 ∧ BYTE_FRAME = 2 ∧ BYTE_CONFIG ≠ BYTE_FRAME :=
  ⟨rfl, rfl, rfl, by decide⟩

/-- C2 (code_bug): the Ctrl-C handler stores into `IS_RUNNING` (main.rs
line 89), but no code ever loads it — the loop condition is only
`recorder.is_recording()` (line 134).  So the session is identical under
every cancellation-flag history, and concretely: with the flag set right
after the first read and no silence timeout, the loop still performs all
three remaining reads and exits only when the source stops, never by a
cancellation-driven `stop()`.  The WAV finalization after the loop does run
regardless (lines 195-204). -/
theorem cancellation_flag_never_observed :
    (∀ (c c' : Nat → Bool) (m : OutputMode) (th r : Nat) (fs : List (List Int)),
        runSession m c th r fs = runSession m c' th r fs) ∧
    (runSession OutputMode.stream cancelAfterFirst 0 1000
        [[1], [1], [1]]).final.reads = 3 ∧
    (runSession OutputMode.stream cancelAfterFirst 0 1000 [[1], [1], [1]]).exit =
      ExitReason.sourceStop ∧
    (runSession OutputMode.wav cancelAfterFirst 0 1000
        [[1], [1], [1]]).finalized = true := by
  refine ⟨fun c c' m th r fs => runSession_cancel_irrelevant c c' m th r fs,
    ?_, ?_, by simp [runSession]⟩
  · simp only [runSession]
    simpa using (captureLoop_thresh0 cancelAfterFirst OutputMode.stream 1000
      [[1], [1], [1]] _).2
  · simp only [runSession]
    exact (captureLoop_thresh0 cancelAfterFirst OutputMode.stream 1000
      [[1], [1], [1]] _).1

/-- C4 (counterexample): with silence timeout 1 ms at sample rate 1000, the
frame `[100, -100]` is noise (and is emitted), then the frame `[1, -1]` is
classified silence and trips the timeout — and the loop `break`s *before*
the routing code (main.rs line 158 vs lines 164-186), so the stream carries
only the first frame's record: the triggering frame is not emitted, contrary
to the claim that it is routed like every other processed frame. -/
theorem silence_stop_drops_triggering_frame_cex :
    (runSession OutputMode.stream noCancel 1 1000
        [[100, -100], [1, -1]]).final.out =
      streamHeader 1000 ++ frameRecordBytes false [100, -100] ∧
    (runSession OutputMode.stream noCancel 1 1000 [[100, -100], [1, -1]]).exit =
      ExitReason.silenceStop := by
  have h1 : loopIter OutputMode.stream 1 1000 [100, -100]
      ⟨some 0, 0, 0, streamHeader 1000, [], 0⟩ =
      (⟨some 10, 0, 1, streamHeader 1000 ++ frameRecordBytes false [100, -100],
        [], 0⟩, false) := by
    simp [loopIter, detectorStep_loud, route]
  have h2 : loopIter OutputMode.stream 1 1000 [1, -1]
      ⟨some 10, 0, 1, streamHeader 1000 ++ frameRecordBytes false [100, -100],
        [], 0⟩ =
      (⟨some (91 / 10), 2, 2,
        streamHeader 1000 ++ frameRecordBytes false [100, -100], [], 0⟩,
        true) := by
    simp [loopIter, detectorStep_quiet, route]
  constructor <;>
    simp [runSession, captureLoop, h1, h2]

/-- C5 (counterexample): on the all-zero sequence `[[0], [0]]` the detector
classifies the *second* frame as noise as well (energy 0 is not `< 0`), so
the claimed classification — first frame noise, every subsequent frame
silence — is wrong already at two frames. -/
theorem all_zero_frames_second_frame_noise_cex :
    classifySeq (some 0) [[0], [0]] ≠ [false, true] := by
  have h1 : detectorStep [0] (some 0) = (false, some 0) :=
    detectorStep_zero_frame [0] (by simp) (by simp)
  simp [classifySeq, h1]

/-- C5 (amended): for an all-zero frame sequence the detector classifies
*every* frame as noise, the first included: the moving average and hence the
threshold stay 0 (or become NaN on an empty frame), and an energy of 0 (or
NaN) is never strictly below the threshold. -/
theorem all_zero_frames_all_noise (fs : List (List Int)) :
    (∀ f ∈ fs, ∀ s ∈ f, s = 0) →
      classifySeq (some 0) fs = fs.map (fun _ => false) := by
  induction fs with
  | nil => intro _; rfl
  | cons f rest ih =>
    intro h
    have hf : ∀ s ∈ f, s = 0 := h f (List.mem_cons_self f rest)
    have hrest : ∀ g ∈ rest, ∀ s ∈ g, s = 0 :=
      fun g hg => h g (List.mem_cons_of_mem f hg)
    rcases eq_or_ne f [] with rfl | hne
    · simp [classifySeq, detectorStep_empty, classifySeq_nan]
    · simp [classifySeq, detectorStep_zero_frame f hf hne, ih hrest]

/-- Witness for C5's amended theorem at the concrete sequence
`[[0], [0]]`. -/
theorem all_zero_frames_all_noise_witness :
    (∀ f ∈ ([[0], [0]] : List (List Int)), ∀ s ∈ f, s = 0) ∧
      classifySeq (some 0) [[0], [0]] = [false, false] :=
  ⟨by decide, by simpa using all_zero_frames_all_noise [[0], [0]] (by decide)⟩

/-- C4 (amended): when a silence timeout is configured and the accumulator
reaches it on some frame, the loop issues `stop()` and terminates
*immediately, without routing the triggering frame*: neither the stdout
stream nor the WAV sample sequence grows on that iteration.  Every frame
that does not trip the timeout is routed as usual: in streaming mode its
frame record is appended to stdout, in WAV mode its samples are appended
and the sink flushed once. -/
theorem silence_stop_skips_routing :
    (∀ (c : Nat → Bool) (m : OutputMode) (th r : Nat) (f : List Int)
        (rest : List (List Int)) (st : LoopState),
      (loopIter m th r f st).2 = true →
        captureLoop c m th r (f :: rest) st =
          ((loopIter m th r f st).1, ExitReason.silenceStop) ∧
        (loopIter m th r f st).1.out = st.out ∧
        (loopIter m th r f st).1.wavSamples = st.wavSamples) ∧
    (∀ (th r : Nat) (f : List Int) (st : LoopState),
      (loopIter OutputMode.stream th r f st).2 = false →
        (loopIter OutputMode.stream th r f st).1.out =
          st.out ++ frameRecordBytes (detectorStep f st.avg).1 f) ∧
    (∀ (th r : Nat) (f : List Int) (st : LoopState),
      (loopIter OutputMode.wav th r f st).2 = false →
        (loopIter OutputMode.wav th r f st).1.wavSamples = st.wavSamples ++ f ∧
        (loopIter OutputMode.wav th r f st).1.flushes = st.flushes + 1) := by
  refine ⟨fun c m th r f rest st h =>
    ⟨captureLoop_cons_stop c m th r f rest st h,
      loopIter_stop_unrouted m th r f st h⟩, ?_, ?_⟩
  · intro th r f st h
    rcases hs : (detectorStep f st.avg).1
    · simp [loopIter, hs, route]
    · simp only [loopIter, hs] at h ⊢
      split_ifs at h ⊢ <;> simp_all [route]
  · intro th r f st h
    rcases hs : (detectorStep f st.avg).1
    · simp [loopIter, hs, route]
    · simp only [loopIter, hs] at h ⊢
      split_ifs at h ⊢ <;> simp_all [route]

/-- Witness for C4's amended theorem at the concrete triggering frame
`[1, -1]` (silence timeout 1 ms, sample rate 1000, moving average 10 after a
loud first frame). -/
theorem silence_stop_skips_routing_witness :
    ((loopIter OutputMode.stream 1 1000 [1, -1]
        ⟨some 10, 0, 1, [], [], 0⟩).2 = true) ∧
    captureLoop noCancel OutputMode.stream 1 1000 [[1, -1]]
        ⟨some 10, 0, 1, [], [], 0⟩ =
      ((loopIter OutputMode.stream 1 1000 [1, -1]
          ⟨some 10, 0, 1, [], [], 0⟩).1, ExitReason.silenceStop) ∧
    (loopIter OutputMode.stream 1 1000 [1, -1]
        ⟨some 10, 0, 1, [], [], 0⟩).1.out = ([] : List Nat) := by
  have h : (loopIter OutputMode.stream 1 1000 [1, -1]
      ⟨some 10, 0, 1, [], [], 0⟩).2 = true := by
    simp [loopIter, detectorStep_quiet]
  have hmain := silence_stop_skips_routing.1 noCancel OutputMode.stream 1 1000
    [1, -1] [] ⟨some 10, 0, 1, [], [], 0⟩ h
  exact ⟨h, hmain.1, hmain.2.1⟩

theorem sum_squares_bounds (f : List Int)
    (h : ∀ s ∈ f, -32768 ≤ s ∧ s ≤ 32767) :
    0 ≤ (f.map (fun sample => sample * sample)).sum ∧
      (f.map (fun sample => sample * sample)).sum ≤
        (f.length : ℤ) * 1073741824 := by
  induction f with
  | nil => simp
  | cons a t ih =>
    have ha := h a (List.mem_cons_self a t)
    have ht : ∀ s ∈ t, -32768 ≤ s ∧ s ≤ 32767 :=
      fun s hs => h s (List.mem_cons_of_mem a hs)
    have hsq : a * a ≤ 1073741824 := by nlinarith [ha.1, ha.2]
    have h0 : 0 ≤ a * a := mul_self_nonneg a
    rcases ih ht with ⟨ih0, ihb⟩
    constructor
    · simpa using add_nonneg h0 ih0
    · simp only [List.map_cons, List.sum_cons, List.length_cons]
      push_cast
      nlinarith [ihb]

/-- C7: the detector follows the spec's formulas exactly — energy is
`sqrt(sum of squared samples / frame length)` with the sum kept in a 64-bit
integer accumulator (exact `Int` here; the bound shows it fits `i64` for any
frame of 16-bit samples up to 2³² samples long), the moving average becomes
`0.1 · energy + 0.9 · previous`, the threshold is `0.9` times the
just-updated average, and the frame is silence exactly when its energy is
strictly below that threshold (strictness stated by the `flt` equivalence). -/
theorem detector_follows_spec_formulas :
    (∀ (frame : List Int) (avg : FVal),
      (detectorStep frame avg).2 =
        fadd (fmul (some ((1 : ℝ) / 10)) (calculate_rms frame))
          (fmul (some ((9 : ℝ) / 10)) avg)) ∧
    (∀ (frame : List Int) (avg : FVal),
      (detectorStep frame avg).1 =
        flt (calculate_rms frame)
          (fmul ((detectorStep frame avg).2) (some ((9 : ℝ) / 10)))) ∧
    (∀ frame : List Int, calculate_rms frame =
        fsqrt (fdiv
          (some (((frame.map (fun sample => sample * sample)).sum : ℤ) : ℝ))
          (some ((frame.length : ℝ))))) ∧
    (∀ x y : ℝ, flt (some x) (some y) = true ↔ x < y) ∧
    (∀ frame : List Int, (∀ s ∈ frame, -32768 ≤ s ∧ s ≤ 32767) →
      frame.length ≤ 4294967296 →
      0 ≤ (frame.map (fun sample => sample * sample)).sum ∧
        (frame.map (fun sample => sample * sample)).sum <
          9223372036854775808) := by
  have hA : ALPHA = (1 : ℝ) / 10 := by norm_num [ALPHA]
  have hB : (1 : ℝ) - ALPHA = (9 : ℝ) / 10 := by norm_num [ALPHA]
  have hS : SILENCE_FACTOR = (9 : ℝ) / 10 := by norm_num [SILENCE_FACTOR]
  refine ⟨?_, ?_, fun frame => rfl, flt_some_some_iff, ?_⟩
  · intro frame avg
    simp only [detectorStep, hB, hA]
    norm_num
  · intro frame avg
    simp only [detectorStep, hS]
  · intro frame h hlen
    rcases sum_squares_bounds frame h with ⟨h0, hb⟩
    refine ⟨h0, lt_of_le_of_lt hb ?_⟩
    have : (frame.length : ℤ) ≤ 4294967296 := by exact_mod_cast hlen
    nlinarith [this]

/-- Witness for C7 at the frame `[5, -3]` and moving average 2. -/
theorem detector_follows_spec_formulas_witness :
    ((∀ s ∈ ([5, -3] : List Int), -32768 ≤ s ∧ s ≤ 32767) ∧
      ([5, -3] : List Int).length ≤ 4294967296) ∧
    (detectorStep [5, -3] (some 2)).2 =
      fadd (fmul (some ((1 : ℝ) / 10)) (calculate_rms [5, -3]))
        (fmul (some ((9 : ℝ) / 10)) (some 2)) ∧
    (0 ≤ (([5, -3] : List Int).map (fun sample => sample * sample)).sum ∧
      (([5, -3] : List Int).map (fun sample => sample * sample)).sum <
        9223372036854775808) :=
  ⟨⟨by decide, by norm_num⟩,
    detector_follows_spec_formulas.1 [5, -3] (some 2),
    detector_follows_spec_formulas.2.2.2.2 [5, -3] (by decide) (by norm_num)⟩

/-- C8: per frame, the silence accumulator is reset to exactly 0 on a frame
classified noise regardless of its prior value, and increased by the frame's
truncated millisecond duration `1000 · len / rate` on a frame classified
silence; the loop's silence auto-stop fires on an iteration exactly when the
configured threshold is positive and the just-updated accumulator has
reached or exceeded it; and with threshold 0 no run of the loop ever exits
by silence-stop. -/
theorem silence_accumulator_and_autostop :
    (∀ (m : OutputMode) (th r : Nat) (f : List Int) (st : LoopState),
      (detectorStep f st.avg).1 = false → (loopIter m th r f st).1.acc = 0) ∧
    (∀ (m : OutputMode) (th r : Nat) (f : List Int) (st : LoopState),
      0 < r → (detectorStep f st.avg).1 = true →
        (loopIter m th r f st).1.acc = st.acc + 1000 * f.length / r) ∧
    (∀ (m : OutputMode) (th r : Nat) (f : List Int) (st : LoopState),
      (loopIter m th r f st).2 = true ↔
        ((detectorStep f st.avg).1 = true ∧ 0 < th ∧
          st.acc + 1000 * f.length / r ≥ th)) ∧
    (∀ (c : Nat → Bool) (m : OutputMode) (r : Nat) (fs : List (List Int))
        (st : LoopState),
      (captureLoop c m 0 r fs st).2 = ExitReason.sourceStop) :=
  ⟨fun m th r f st h => loopIter_acc_noise m th r f st h,
    fun m th r f st _ h => loopIter_acc_silence m th r f st h,
    fun m th r f st => loopIter_stop_iff m th r f st,
    fun c m r fs st => (captureLoop_thresh0 c m r fs st).1⟩

/-- Witness for C8 at the concrete noise frame `[1]` from a state with
accumulated silence 7 ms (reset to 0), and the auto-stop equivalence at the
same input. -/
theorem silence_accumulator_and_autostop_witness :
    ((detectorStep [1] (some 0)).1 = false) ∧
    (loopIter OutputMode.stream 5 1000 [1] ⟨some 0, 7, 0, [], [], 0⟩).1.acc = 0 ∧
    (0 < 1000 ∧
      ((loopIter OutputMode.stream 5 1000 [1] ⟨some 0, 7, 0, [], [], 0⟩).2 = true ↔
        ((detectorStep [1] (some 0)).1 = true ∧ 0 < 5 ∧
          7 + 1000 * ([1] : List Int).length / 1000 ≥ 5))) := by
  have hf : (detectorStep [1] (some 0)).1 = false := by
    simp [detectorStep_single_one]
  refine ⟨hf,
    silence_accumulator_and_autostop.1 OutputMode.stream 5 1000 [1]
      ⟨some 0, 7, 0, [], [], 0⟩ hf,
    by norm_num, ?_⟩
  exact silence_accumulator_and_autostop.2.2.1 OutputMode.stream 5 1000 [1]
    ⟨some 0, 7, 0, [], [], 0⟩

/-- C9 (counterexample): requesting device index 5 with a single enumerated
device makes `main` exit with `USER_ERROR = 2` (main.rs line 82) — the
user/argument-error status, not the audio-device status `AUDIO_ERROR = 3`
that the claim asserts. -/
theorem invalid_device_index_user_error_cex :
    mainRun false false (some "out.wav") (some 5) ["dev0"] 0 16000 noCancel [] =
      MainOutcome.exited USER_ERROR ∧ USER_ERROR ≠ AUDIO_ERROR := by
  exact ⟨rfl, by decide⟩

/-- C9 (amended): an out-of-range device index makes the program exit with
the user/argument-error status `USER_ERROR` (not the audio-device status),
during the configuration phase and so before any capture begins (the
`exited` outcome is produced before the recorder is initialized or
started). -/
theorem invalid_device_index_exits_user_error
    (streamFlag : Bool) (output : Option String) (id : Nat)
    (devices : List String) (th r : Nat) (c : Nat → Bool)
    (frames : List (List Int))
    (hmode1 : ¬(streamFlag ∧ output.isSome))
    (hmode2 : ¬(¬streamFlag ∧ output.isNone))
    (hid : devices.length ≤ id) :
    mainRun streamFlag false output (some id) devices th r c frames =
      MainOutcome.exited USER_ERROR ∧ USER_ERROR ≠ AUDIO_ERROR := by
  have hget : devices[id]? = none := by
    simpa [List.getElem?_eq_none_iff] using hid
  refine ⟨?_, by decide⟩
  simp only [mainRun]
  rw [if_neg hmode1, if_neg hmode2]
  simp [hget]

/-- Witness for C9's amended theorem: one device, requested index 3, WAV
output. -/
theorem invalid_device_index_exits_user_error_witness :
    (¬(false ∧ (some "o.wav" : Option String).isSome) ∧
      ¬(¬false ∧ (some "o.wav" : Option String).isNone) ∧
      (["d"] : List String).length ≤ 3) ∧
    (mainRun false false (some "o.wav") (some 3) ["d"] 0 16000 noCancel [] =
      MainOutcome.exited USER_ERROR ∧ USER_ERROR ≠ AUDIO_ERROR) :=
  ⟨⟨by simp, by simp, by norm_num⟩,
    invalid_device_index_exits_user_error false (some "o.wav") 3 ["d"] 0 16000
      noCancel [] (by simp) (by simp) (by norm_num)⟩

/-- C10: on an empty frame `calculate_rms` divides `0.0 / 0.0` unguarded and
yields NaN (`none` in this model) instead of failing; such a frame is
classified noise (a `<` comparison against NaN is false), the NaN enters the
moving average, and from then on every frame of the session is classified
noise whatever its samples: a session starting with an empty frame
classifies every frame, the empty one included, as noise. -/
theorem empty_frame_nan_poisons_detector :
    calculate_rms [] = none ∧
    (∀ avg : FVal, detectorStep [] avg = (false, none)) ∧
    (∀ frame : List Int, detectorStep frame none = (false, none)) ∧
    (∀ rest : List (List Int),
      classifySeq (some 0) ([] :: rest) = false :: rest.map (fun _ => false)) :=
  ⟨calculate_rms_nil, detectorStep_empty, detectorStep_nan, by
    intro rest
    simp [classifySeq, detectorStep_empty, classifySeq_nan]⟩

end AudioRecorder
